import Mathlib

/-!
Verification of the BERT-encoder core of `bert.py` (minbert).

Tensors are shallowly embedded as curried functions over `Fin`-indexed
axes with real-valued entries; `nn.Linear` is embedded as an explicit
weight/bias pair, `F.softmax` by its mathematical definition, and
`nn.Dropout` by an explicit training flag together with a Boolean noise
stream (the per-element coin flips of the stochastic zeroing).  Library
modules whose internals no claim depends on (`nn.LayerNorm`, `F.gelu`)
are carried as opaque function-valued fields of the corresponding
module structure, exactly where the Python module object holds them.
-/

noncomputable section

open Finset

/-- Embedding of `nn.Linear(in_dim, out_dim)`: a weight matrix and a bias
vector, as stored by the three projection layers, the dense layers and
the pooler of `bert.py`. -/
structure Linear (inDim outDim : ℕ) where
  weight : Fin outDim → Fin inDim → ℝ
  bias : Fin outDim → ℝ

/-- Application of an `nn.Linear` module to one vector (the affine map
`x ↦ W x + b`); PyTorch applies it independently to every trailing row
of a higher-rank tensor, which the callers below do explicitly. -/
def Linear.apply {inDim outDim : ℕ} (l : Linear inDim outDim)
    (x : Fin inDim → ℝ) : Fin outDim → ℝ :=
  fun o => (∑ i, l.weight o i * x i) + l.bias o

/-- Embedding of `F.softmax(x, dim=-1)` on one row: `exp` of each entry
divided by the sum of `exp` over the row. -/
def softmax {n : ℕ} (x : Fin n → ℝ) : Fin n → ℝ :=
  fun j => Real.exp (x j) / ∑ k, Real.exp (x k)

/-- Embedding of `nn.Dropout(p)` applied to one row under an explicit
`training` flag and a Boolean noise stream: in training mode each entry
is zeroed where the noise fires and rescaled by `1/(1-p)` elsewhere; in
evaluation mode dropout is the identity. -/
def dropoutFn {ι : Type} (training : Bool) (p : ℝ) (noise : ι → Bool)
    (x : ι → ℝ) : ι → ℝ :=
  fun i => if training then (if noise i then 0 else x i / (1 - p)) else x i

/-- The sizes computed by `BertSelfAttention.__init__` (bert.py lines
15-17): `attention_head_size = int(hidden_size / num_attention_heads)`
(Python `int` of a true division of nonnegative integers, i.e. floor
division) and `all_head_size = num_attention_heads *
attention_head_size`.  Python's true division raises
`ZeroDivisionError` when `num_attention_heads = 0`, embedded as `none`;
for a positive head count the constructor performs no divisibility
check and always returns the two sizes. -/
def BertSelfAttention.initDims (hidden_size num_attention_heads : ℕ) : Option (ℕ × ℕ) :=
  if num_attention_heads = 0 then none
  else
    let attention_head_size := hidden_size / num_attention_heads
    some (attention_head_size, num_attention_heads * attention_head_size)

lemma flatIdx_lt {nh hs : ℕ} (h : Fin nh) (i : Fin hs) :
    h.val * hs + i.val < nh * hs := by
  calc h.val * hs + i.val < h.val * hs + hs := Nat.add_lt_add_left i.isLt _
    _ = (h.val + 1) * hs := (Nat.succ_mul _ _).symm
    _ ≤ nh * hs := Nat.mul_le_mul_right _ h.isLt

/-- `BertSelfAttention` module state: the three projection layers and
the dropout module constructed from `attention_probs_dropout_prob`
(bert.py lines 20-23).  The dropout module is constructed but — as the
commented-out line 41 of the source shows — never invoked in
`attention`. -/
structure BertSelfAttention (nh hs : ℕ) where
  query : Linear (nh * hs) (nh * hs)
  key : Linear (nh * hs) (nh * hs)
  value : Linear (nh * hs) (nh * hs)
  attention_probs_dropout_prob : ℝ

/-- Embedding of `BertSelfAttention.transform` (bert.py lines 25-33):
apply a projection layer row-wise, view the result as
`[bs, seq_len, nh, hs]` (row-major split of the last axis) and
transpose axes 1 and 2 to `[bs, nh, seq_len, hs]`. -/
def BertSelfAttention.transform {B L nh hs : ℕ}
    (x : Fin B → Fin L → Fin (nh * hs) → ℝ)
    (linear_layer : Linear (nh * hs) (nh * hs)) :
    Fin B → Fin nh → Fin L → Fin hs → ℝ :=
  fun b h l i => linear_layer.apply (x b l) ⟨h.val * hs + i.val, flatIdx_lt h i⟩

/-- The raw attention scores of `BertSelfAttention.attention` (bert.py
line 38): scaled dot product `(Query · Key) / sqrt(head_size)`, where
`key.size(-1)` is the per-head size `hs`. -/
def attnScores {B L nh hs : ℕ}
    (query key : Fin B → Fin nh → Fin L → Fin hs → ℝ) :
    Fin B → Fin nh → Fin L → Fin L → ℝ :=
  fun b h i j => (∑ d, query b h i d * key b h j d) / Real.sqrt hs

/-- The masked attention scores of `BertSelfAttention.attention`
(bert.py line 39): `masked_fill_(attention_mask == -10000.0,
value=-10000.0)` overwrites the score with `-10000` wherever the
extended mask (shape `[bs,1,1,seq_len]`, broadcast over heads and query
positions) equals `-10000`, and leaves it unchanged elsewhere. -/
def maskedScores {B L nh hs : ℕ}
    (query key : Fin B → Fin nh → Fin L → Fin hs → ℝ)
    (attention_mask : Fin B → Fin 1 → Fin 1 → Fin L → ℝ) :
    Fin B → Fin nh → Fin L → Fin L → ℝ :=
  fun b h i j =>
    if attention_mask b 0 0 j = -10000 then -10000 else attnScores query key b h i j

/-- The normalized attention weights of `BertSelfAttention.attention`
(bert.py line 40): row-wise softmax of the masked scores over the key
axis. -/
def attnWeights {B L nh hs : ℕ}
    (query key : Fin B → Fin nh → Fin L → Fin hs → ℝ)
    (attention_mask : Fin B → Fin 1 → Fin 1 → Fin L → ℝ) :
    Fin B → Fin nh → Fin L → Fin L → ℝ :=
  fun b h i => softmax (maskedScores query key attention_mask b h i)

/-- Embedding of `BertSelfAttention.attention` (bert.py lines 35-43):
scaled dot-product scores, hard masking, softmax, and the weighted sum
with the value tensor.  The attention-probability dropout (line 41) is
commented out in the source and hence absent here. -/
def BertSelfAttention.attention {B L nh hs : ℕ}
    (key query value : Fin B → Fin nh → Fin L → Fin hs → ℝ)
    (attention_mask : Fin B → Fin 1 → Fin 1 → Fin L → ℝ) :
    Fin B → Fin nh → Fin L → Fin hs → ℝ :=
  fun b h i d => ∑ j, attnWeights query key attention_mask b h i j * value b h j d

/-- Embedding of `BertSelfAttention.forward` (bert.py lines 45-50).
The `training` flag and the attention-probability noise stream `pn` are
the ambient state the module's dropout would consume; the body uses
neither, because the source never invokes `self.dropout`. -/
def BertSelfAttention.forward {B L nh hs : ℕ} (sa : BertSelfAttention nh hs)
    (training : Bool) (pn : Fin B → Fin nh → Fin L → Fin L → Bool)
    (hidden_states : Fin B → Fin L → Fin (nh * hs) → ℝ)
    (attention_mask : Fin B → Fin 1 → Fin 1 → Fin L → ℝ) :
    Fin B → Fin nh → Fin L → Fin hs → ℝ :=
  BertSelfAttention.attention
    (BertSelfAttention.transform hidden_states sa.key)
    (BertSelfAttention.transform hidden_states sa.query)
    (BertSelfAttention.transform hidden_states sa.value)
    attention_mask

/-- The head-concatenation step of `BertLayer.forward` (bert.py line
84): `transpose(1,2).reshape(bs, seq_len, -1)` maps the per-head tensor
`[bs, nh, seq_len, hs]` back to `[bs, seq_len, nh*hs]`, entry `d` of a
row coming from head `d / hs`, inner coordinate `d % hs` (row-major). -/
def concatHeads {B L nh hs : ℕ}
    (x : Fin B → Fin nh → Fin L → Fin hs → ℝ) :
    Fin B → Fin L → Fin (nh * hs) → ℝ :=
  fun b l d =>
    have hpos : 0 < nh * hs := Nat.pos_of_ne_zero (by
      intro h0
      exact absurd d.isLt (by simp [h0]))
    have hhs : 0 < hs := Nat.pos_of_ne_zero (by
      intro h0
      simp [h0] at hpos)
    x b ⟨d.val / hs,
      Nat.div_lt_of_lt_mul (lt_of_lt_of_le d.isLt (le_of_eq (Nat.mul_comm nh hs)))⟩
      l ⟨d.val % hs, Nat.mod_lt _ hhs⟩

/-- `BertLayer` module state (bert.py lines 54-67): the self-attention
submodule, the attention-output dense/LayerNorm/dropout triple, the
intermediate dense layer with its activation (`F.gelu` in the source),
and the output dense/LayerNorm/dropout triple.  The two LayerNorm
modules and the activation are carried as opaque row functions; both
dropout modules are `nn.Dropout(hidden_dropout_prob)`. -/
structure BertLayer (nh hs iSize : ℕ) where
  self_attention : BertSelfAttention nh hs
  attention_dense : Linear (nh * hs) (nh * hs)
  attention_layer_norm : (Fin (nh * hs) → ℝ) → Fin (nh * hs) → ℝ
  interm_dense : Linear (nh * hs) iSize
  interm_af : ℝ → ℝ
  out_dense : Linear iSize (nh * hs)
  out_layer_norm : (Fin (nh * hs) → ℝ) → Fin (nh * hs) → ℝ
  hidden_dropout_prob : ℝ

/-- Embedding of `BertLayer.add_norm` (bert.py lines 69-76):
`ln_layer(input + dropout(dense_layer(output)))`, with the dense layer,
dropout and LayerNorm applied row-wise (per batch element and
sequence position), as PyTorch broadcasts them. -/
def BertLayer.add_norm {B L H D : ℕ}
    (input : Fin B → Fin L → Fin H → ℝ)
    (output : Fin B → Fin L → Fin D → ℝ)
    (dense_layer : (Fin D → ℝ) → Fin H → ℝ)
    (dropout : Fin B → Fin L → (Fin H → ℝ) → Fin H → ℝ)
    (ln_layer : (Fin H → ℝ) → Fin H → ℝ) :
    Fin B → Fin L → Fin H → ℝ :=
  fun b l => ln_layer (fun h => input b l h + dropout b l (dense_layer (output b l)) h)

/-- Embedding of `BertLayer.forward` (bert.py lines 78-92): multi-head
attention, head concatenation, a first add-norm against the layer
input, the feed-forward activation, and a second add-norm against the
first add-norm's output.  `nA`/`nO` are the noise streams of
`attention_dropout`/`out_dropout`; `pn` is the (never consumed) noise
stream of the attention-probability dropout. -/
def BertLayer.forward {B L nh hs iSize : ℕ} (l : BertLayer nh hs iSize)
    (training : Bool)
    (nA nO : Fin B → Fin L → Fin (nh * hs) → Bool)
    (pn : Fin B → Fin nh → Fin L → Fin L → Bool)
    (hidden_states : Fin B → Fin L → Fin (nh * hs) → ℝ)
    (attention_mask : Fin B → Fin 1 → Fin 1 → Fin L → ℝ) :
    Fin B → Fin L → Fin (nh * hs) → ℝ :=
  let attn_output := l.self_attention.forward training pn hidden_states attention_mask
  let attn_flat := concatHeads attn_output
  let norm_output := BertLayer.add_norm hidden_states attn_flat
    l.attention_dense.apply
    (fun b l' => dropoutFn training l.hidden_dropout_prob (nA b l'))
    l.attention_layer_norm
  let ff_output := fun b l' i => l.interm_af (l.interm_dense.apply (norm_output b l') i)
  BertLayer.add_norm norm_output ff_output
    l.out_dense.apply
    (fun b l' => dropoutFn training l.hidden_dropout_prob (nO b l'))
    l.out_layer_norm

/-- Modelled from the spec: `get_extended_attention_mask` lives in
`utils.py`, which is not part of the sources; §4.5 of the spec states
the contract — a pure function from a binary mask `[batch, seq_len]` of
`{0,1}` to an extended mask `[batch,1,1,seq_len]`, value 1 (attend)
mapping to 0 and value 0 (padding) mapping to `-10000.0`, preserving
batch order. -/
def get_extended_attention_mask {B L : ℕ} (attention_mask : Fin B → Fin L → ℝ) :
    Fin B → Fin 1 → Fin 1 → Fin L → ℝ :=
  fun b _ _ j => if attention_mask b j = 1 then 0 else -10000

/-- `BertModel` module state (bert.py lines 96-117) over vocabulary
size, position capacity, type-vocabulary size, head count, head size
and intermediate size: the three embedding tables, the embedding
LayerNorm (opaque row function) and dropout, the stack of encoder
layers, and the pooler dense layer (its activation `nn.Tanh()` is fixed
in `forward`).  The hidden size is `nh * hs`. -/
structure BertModel (vocab maxPos tv nh hs iSize : ℕ) where
  word_embedding : Fin vocab → Fin (nh * hs) → ℝ
  pos_embedding : Fin maxPos → Fin (nh * hs) → ℝ
  tk_type_embedding : Fin tv → Fin (nh * hs) → ℝ
  embed_layer_norm : (Fin (nh * hs) → ℝ) → Fin (nh * hs) → ℝ
  hidden_dropout_prob : ℝ
  bert_layers : List (BertLayer nh hs iSize)
  pooler_dense : Linear (nh * hs) (nh * hs)

/-- Embedding of `BertModel.embed` (bert.py lines 119-142): word
embedding of each token id, position embedding of `arange(seq_length)`
expanded over the batch (valid only when `L ≤ maxPos`, the bound
enforced by `nn.Embedding`), token-type embedding of the all-zero
placeholder ids, summed as `inputs_embeds + tk_type_embeds +
pos_embeds`, then LayerNorm and dropout. -/
def BertModel.embed {vocab maxPos tv nh hs iSize B L : ℕ}
    (m : BertModel vocab maxPos tv nh hs iSize)
    (training : Bool) (nE : Fin B → Fin L → Fin (nh * hs) → Bool)
    (hL : L ≤ maxPos) (htv : 0 < tv)
    (input_ids : Fin B → Fin L → Fin vocab) :
    Fin B → Fin L → Fin (nh * hs) → ℝ :=
  let inputs_embeds := fun (b : Fin B) (l : Fin L) h => m.word_embedding (input_ids b l) h
  let pos_embeds := fun (_ : Fin B) (l : Fin L) h => m.pos_embedding (Fin.castLE hL l) h
  let tk_type_embeds := fun (_ : Fin B) (_ : Fin L) h => m.tk_type_embedding ⟨0, htv⟩ h
  let embeds := fun b l h => inputs_embeds b l h + tk_type_embeds b l h + pos_embeds b l h
  fun b l => dropoutFn training m.hidden_dropout_prob (nE b l)
    (m.embed_layer_norm (embeds b l))

/-- The enumerated-layer loop of `BertModel.encode` (bert.py lines
149-150): thread the hidden states through the layers in order, layer
`k` drawing its dropout noise from position `k` of the per-layer noise
streams. -/
def encodeLayers {nh hs iSize B L : ℕ} (training : Bool)
    (nA nO : ℕ → Fin B → Fin L → Fin (nh * hs) → Bool)
    (pn : ℕ → Fin B → Fin nh → Fin L → Fin L → Bool) :
    List (BertLayer nh hs iSize) → ℕ →
    (Fin B → Fin L → Fin (nh * hs) → ℝ) →
    (Fin B → Fin 1 → Fin 1 → Fin L → ℝ) →
    Fin B → Fin L → Fin (nh * hs) → ℝ
  | [], _, hidden_states, _ => hidden_states
  | l :: rest, k, hidden_states, mask =>
      encodeLayers training nA nO pn rest (k + 1)
        (l.forward training (nA k) (nO k) (pn k) hidden_states mask) mask

/-- Embedding of `BertModel.encode` (bert.py lines 144-152): compute
the extended attention mask once from the binary mask, then run the
hidden states through the stacked layers sequentially. -/
def BertModel.encode {vocab maxPos tv nh hs iSize B L : ℕ}
    (m : BertModel vocab maxPos tv nh hs iSize)
    (training : Bool)
    (nA nO : ℕ → Fin B → Fin L → Fin (nh * hs) → Bool)
    (pn : ℕ → Fin B → Fin nh → Fin L → Fin L → Bool)
    (hidden_states : Fin B → Fin L → Fin (nh * hs) → ℝ)
    (attention_mask : Fin B → Fin L → ℝ) :
    Fin B → Fin L → Fin (nh * hs) → ℝ :=
  let extended_attention_mask := get_extended_attention_mask attention_mask
  encodeLayers training nA nO pn m.bert_layers 0 hidden_states extended_attention_mask

/-- The two named outputs of `BertModel.forward` (bert.py line 165):
the dictionary keys `last_hidden_state` (shape `[batch, L, hidden]`)
and `pooler_output` (shape `[batch, hidden]`). -/
structure BertOutput (B L H : ℕ) where
  last_hidden_state : Fin B → Fin L → Fin H → ℝ
  pooler_output : Fin B → Fin H → ℝ

/-- Embedding of `BertModel.forward` (bert.py lines 154-165): embed,
encode, then pool by taking the hidden state at sequence position 0,
applying the pooler dense layer and `nn.Tanh()`. -/
def BertModel.forward {vocab maxPos tv nh hs iSize B L : ℕ}
    (m : BertModel vocab maxPos tv nh hs iSize)
    (training : Bool)
    (nE : Fin B → Fin L → Fin (nh * hs) → Bool)
    (nA nO : ℕ → Fin B → Fin L → Fin (nh * hs) → Bool)
    (pn : ℕ → Fin B → Fin nh → Fin L → Fin L → Bool)
    (h0 : 0 < L) (hL : L ≤ maxPos) (htv : 0 < tv)
    (input_ids : Fin B → Fin L → Fin vocab)
    (attention_mask : Fin B → Fin L → ℝ) :
    BertOutput B L (nh * hs) :=
  let embedding_output := m.embed training nE hL htv input_ids
  let sequence_output := m.encode training nA nO pn embedding_output attention_mask
  let first_tk := fun (b : Fin B) h => Real.tanh (m.pooler_dense.apply (fun h' => sequence_output b ⟨0, h0⟩ h') h)
  { last_hidden_state := sequence_output, pooler_output := first_tk }

end

/-- Shape-level semantics of `BertModel.forward` for dynamically shaped
inputs: token ids of shape `[B, L]`, attention mask of shape
`[Bm, Lm]`, `numLayers` encoder layers, position capacity `maxPos`,
hidden size `H`.  `bert.py` performs no explicit shape validation; the
only failure points are the ones its tensor library raises:
the position-embedding lookup `pos_embedding(arange(L))` (bert.py line
129) demands `L ≤ maxPos`; `masked_fill_` (line 39), reached only when
at least one layer runs, demands that the extended mask
`[Bm,1,1,Lm]` be broadcastable to the score shape `[B,nh,L,L]`
(a dimension must match or be 1); and the pooler indexing
`sequence_output[:, 0]` (line 161) demands `0 < L`.  On success the
output shapes are `[B, L, H]` and `[B, H]`. -/
def forwardShape (maxPos numLayers B L Bm Lm H : ℕ) : Option ((ℕ × ℕ × ℕ) × (ℕ × ℕ)) :=
  if L ≤ maxPos then
    if numLayers = 0 ∨ ((Bm = B ∨ Bm = 1) ∧ (Lm = L ∨ Lm = 1)) then
      if 0 < L then some ((B, L, H), (B, H)) else none
    else none
  else none

noncomputable section

/-- A concrete constant query/key tensor with one batch element, one
head, two positions and head size one, used to instantiate theorems. -/
def exQ2 : Fin 1 → Fin 1 → Fin 2 → Fin 1 → ℝ := fun _ _ _ _ => 1

/-- A concrete extended mask whose first key position carries 0 and
whose second carries the `-10000` sentinel. -/
def exMaskHalf : Fin 1 → Fin 1 → Fin 1 → Fin 2 → ℝ :=
  fun _ _ _ j => if j.val = 0 then 0 else -10000

/-- A concrete extended mask carrying the `-10000` sentinel at every
key position (an all-masked row). -/
def exAllMasked : Fin 1 → Fin 1 → Fin 1 → Fin 2 → ℝ := fun _ _ _ _ => -10000

/-- A concrete binary attention mask: position 0 is a real token,
position 1 is padding. -/
def exBinMask : Fin 1 → Fin 2 → ℝ := fun _ j => if j.val = 0 then 1 else 0

/-- A concrete 1×1 linear layer. -/
def exLinear1 : Linear 1 1 := ⟨fun _ _ => 1, fun _ => 0⟩

/-- A concrete `BertModel` instance with every size 1 and no encoder
layers, used to instantiate the model-level theorems. -/
def exModel : BertModel 1 1 1 1 1 1 where
  word_embedding := fun _ _ => 1
  pos_embedding := fun _ _ => 2
  tk_type_embedding := fun _ _ => 3
  embed_layer_norm := fun x => x
  hidden_dropout_prob := 0
  bert_layers := []
  pooler_dense := exLinear1

/-- A concrete embedding-dropout noise stream that never fires. -/
def exNoiseE : Fin 1 → Fin 1 → Fin 1 → Bool := fun _ _ _ => false

/-- A concrete embedding-dropout noise stream that always fires. -/
def exNoiseE2 : Fin 1 → Fin 1 → Fin 1 → Bool := fun _ _ _ => true

/-- A concrete per-layer add-norm dropout noise stream that never
fires. -/
def exNoiseL : ℕ → Fin 1 → Fin 1 → Fin 1 → Bool := fun _ _ _ _ => false

/-- A concrete per-layer add-norm dropout noise stream that always
fires. -/
def exNoiseL2 : ℕ → Fin 1 → Fin 1 → Fin 1 → Bool := fun _ _ _ _ => true

/-- A concrete per-layer attention-probability noise stream that never
fires. -/
def exNoiseP : ℕ → Fin 1 → Fin 1 → Fin 1 → Fin 1 → Bool := fun _ _ _ _ _ => false

/-- A concrete per-layer attention-probability noise stream that always
fires. -/
def exNoiseP2 : ℕ → Fin 1 → Fin 1 → Fin 1 → Fin 1 → Bool := fun _ _ _ _ _ => true

/-- A concrete token-id batch with one sequence of length one. -/
def exIds : Fin 1 → Fin 1 → Fin 1 := fun _ _ => 0

/-- A concrete all-ones binary attention mask of shape 1×1. -/
def exMask1 : Fin 1 → Fin 1 → ℝ := fun _ _ => 1

/-- A concrete one-head, head-size-one self-attention module. -/
def exSelfAttention : BertSelfAttention 1 1 := ⟨exLinear1, exLinear1, exLinear1, 0⟩

/-- A concrete constant hidden-state tensor of shape 1×1×1. -/
def exHidden : Fin 1 → Fin 1 → Fin 1 → ℝ := fun _ _ _ => 1

end

/-- C1, counterexample: constructing the self-attention component with
hidden_size = 10 and num_attention_heads = 3 does not fail — bert.py's
`__init__` performs no divisibility check; the sole constructor error
path (`ZeroDivisionError` at a zero head count) is not taken, and it
returns attention_head_size = int(10/3) = 3 and all_head_size = 9, even
though 3 does not divide 10. -/
theorem initDims_no_divisibility_check :
    BertSelfAttention.initDims 10 3 = some (3, 9) ∧ ¬ (3 ∣ 10) := by decide

/-- C1, amended: when a positive num_attention_heads does not divide
hidden_size, construction still succeeds — no configuration error is
raised — and it silently truncates: the resulting all_head_size
`num_attention_heads * int(hidden_size / num_attention_heads)` is
strictly smaller than hidden_size.  (The constructor's only failure is
the `ZeroDivisionError` at num_attention_heads = 0, unrelated to
divisibility.) -/
theorem initDims_truncates (hidden_size num_attention_heads : ℕ)
    (hpos : 0 < num_attention_heads)
    (hnd : ¬ num_attention_heads ∣ hidden_size) :
    BertSelfAttention.initDims hidden_size num_attention_heads =
      some (hidden_size / num_attention_heads,
        num_attention_heads * (hidden_size / num_attention_heads)) ∧
    num_attention_heads * (hidden_size / num_attention_heads) < hidden_size := by
  constructor
  · unfold BertSelfAttention.initDims
    rw [if_neg hpos.ne']
  · have hle : num_attention_heads * (hidden_size / num_attention_heads) ≤ hidden_size := by
      rw [Nat.mul_comm]
      exact Nat.div_mul_le_self _ _
    have hne : num_attention_heads * (hidden_size / num_attention_heads) ≠ hidden_size :=
      fun he => hnd ⟨_, he.symm⟩
    exact lt_of_le_of_ne hle hne

/-- Witness for `initDims_truncates` at hidden_size = 10,
num_attention_heads = 3. -/
theorem initDims_truncates_witness :
    BertSelfAttention.initDims 10 3 = some (10 / 3, 3 * (10 / 3)) ∧ 3 * (10 / 3) < 10 :=
  initDims_truncates 10 3 (by decide) (by decide)

/-- C2: wherever the extended mask carries the `-10000` sentinel, the
masked attention score equals exactly `-10000`, regardless of the
scaled dot product (overwrite, not addition); wherever the mask is 0,
the masked score equals the scaled dot product
`(Query·Key)/sqrt(head_size)` unchanged. -/
theorem maskedScores_overwrite {B L nh hs : ℕ}
    (query key : Fin B → Fin nh → Fin L → Fin hs → ℝ)
    (attention_mask : Fin B → Fin 1 → Fin 1 → Fin L → ℝ)
    (b : Fin B) (h : Fin nh) (i j : Fin L) :
    (attention_mask b 0 0 j = -10000 →
      maskedScores query key attention_mask b h i j = -10000) ∧
    (attention_mask b 0 0 j = 0 →
      maskedScores query key attention_mask b h i j = attnScores query key b h i j) := by
  constructor
  · intro hm
    simp only [maskedScores, hm, if_pos]
  · intro hm
    simp only [maskedScores, hm]
    norm_num

/-- Witness for `maskedScores_overwrite`: on a concrete two-position
input whose mask flags position 1, the masked score at position 1 is
`-10000` and the masked score at position 0 is the raw score. -/
theorem maskedScores_overwrite_witness :
    maskedScores exQ2 exQ2 exMaskHalf 0 0 0 1 = -10000 ∧
    maskedScores exQ2 exQ2 exMaskHalf 0 0 0 0 = attnScores exQ2 exQ2 0 0 0 0 :=
  ⟨(maskedScores_overwrite exQ2 exQ2 exMaskHalf 0 0 0 1).1 (by norm_num [exMaskHalf]),
   (maskedScores_overwrite exQ2 exQ2 exMaskHalf 0 0 0 0).2 (by norm_num [exMaskHalf])⟩

/-- C3: the attention-mask extension applied at the start of `encode`
is a pure elementwise map preserving batch order — every position whose
binary mask value is 1 maps to exactly 0, and every position whose
value is 0 maps to exactly `-10000`, the singleton middle axes making
the result shape `[batch, 1, 1, seq_len]`. -/
theorem extended_mask_spec {B L : ℕ} (attention_mask : Fin B → Fin L → ℝ)
    (b : Fin B) (u v : Fin 1) (j : Fin L) :
    (attention_mask b j = 1 →
      get_extended_attention_mask attention_mask b u v j = 0) ∧
    (attention_mask b j = 0 →
      get_extended_attention_mask attention_mask b u v j = -10000) := by
  constructor
  · intro hm
    simp only [get_extended_attention_mask, hm, if_pos]
  · intro hm
    simp only [get_extended_attention_mask, hm]
    norm_num

/-- Witness for `extended_mask_spec` on a concrete binary mask with a
real token at position 0 and padding at position 1. -/
theorem extended_mask_spec_witness :
    get_extended_attention_mask exBinMask 0 0 0 0 = 0 ∧
    get_extended_attention_mask exBinMask 0 0 0 1 = -10000 :=
  ⟨(extended_mask_spec exBinMask 0 0 0 0).1 (by norm_num [exBinMask]),
   (extended_mask_spec exBinMask 0 0 0 1).2 (by norm_num [exBinMask])⟩

lemma softmax_sum_eq_one {n : ℕ} (hn : 0 < n) (x : Fin n → ℝ) :
    ∑ j, softmax x j = 1 := by
  have hne : Nonempty (Fin n) := Fin.pos_iff_nonempty.mp hn
  have hpos : 0 < ∑ k, Real.exp (x k) :=
    Finset.sum_pos (fun k _ => Real.exp_pos _) Finset.univ_nonempty
  unfold softmax
  rw [← Finset.sum_div]
  exact div_self (ne_of_gt hpos)

lemma softmax_const {n : ℕ} (hn : 0 < n) (c : ℝ) (j : Fin n) :
    softmax (fun _ => c) j = 1 / n := by
  have he : Real.exp c ≠ 0 := (Real.exp_pos c).ne'
  have hn' : (n : ℝ) ≠ 0 := Nat.cast_ne_zero.mpr hn.ne'
  unfold softmax
  rw [Finset.sum_const, Finset.card_univ, Fintype.card_fin, nsmul_eq_mul]
  field_simp
  ring

/-- C4: every attention-weight row (fixed batch index, head and query
position) sums to 1 over the key axis after masking and softmax; a row
all of whose key positions are masked (all scores `-10000`) yields the
uniform distribution `1/L` — a defined value, not a division by zero
(over the reals there is no NaN/Inf; the spec's floating-point
tolerance reading is the exact statement here). -/
theorem attnWeights_rows_normalized {B L nh hs : ℕ}
    (query key : Fin B → Fin nh → Fin L → Fin hs → ℝ)
    (attention_mask : Fin B → Fin 1 → Fin 1 → Fin L → ℝ)
    (b : Fin B) (h : Fin nh) (i : Fin L) :
    (∑ j, attnWeights query key attention_mask b h i j = 1) ∧
    ((∀ j, attention_mask b 0 0 j = -10000) →
      ∀ j, attnWeights query key attention_mask b h i j = 1 / L) := by
  have hL : 0 < L := i.pos
  constructor
  · exact softmax_sum_eq_one hL _
  · intro hmask j
    have hconst : maskedScores query key attention_mask b h i = fun _ => (-10000 : ℝ) := by
      funext j'
      simp only [maskedScores, hmask j', if_pos]
    unfold attnWeights
    rw [hconst]
    exact softmax_const hL _ j

/-- Witness for `attnWeights_rows_normalized` on a concrete two-key
input whose mask flags every key position: the row sums to 1 and each
weight is the uniform value 1/2. -/
theorem attnWeights_rows_normalized_witness :
    (∑ j, attnWeights exQ2 exQ2 exAllMasked 0 0 0 j = 1) ∧
    attnWeights exQ2 exQ2 exAllMasked 0 0 0 0 = 1 / 2 := by
  refine ⟨(attnWeights_rows_normalized exQ2 exQ2 exAllMasked 0 0 0).1, ?_⟩
  have h2 := (attnWeights_rows_normalized exQ2 exQ2 exAllMasked 0 0 0).2 (fun _ => rfl) 0
  norm_num at h2
  exact h2

/-- C5: each encoder layer applies exactly two add-norm sublayers of
the shape `Normalize(input + Dropout(Dense(transformed)))` — the first
with the flattened multi-head attention context as `transformed` and
the layer's input hidden states as residual `input`, the second with
the activated (`interm_af`, which the constructor sets to `F.gelu`)
intermediate projection of the first sublayer's output as `transformed`
and that first sublayer's output, not the original layer input, as
residual `input`. -/
theorem bertLayer_two_add_norms {B L nh hs iSize : ℕ} (l : BertLayer nh hs iSize)
    (training : Bool) (nA nO : Fin B → Fin L → Fin (nh * hs) → Bool)
    (pn : Fin B → Fin nh → Fin L → Fin L → Bool)
    (hidden_states : Fin B → Fin L → Fin (nh * hs) → ℝ)
    (attention_mask : Fin B → Fin 1 → Fin 1 → Fin L → ℝ) :
    l.forward training nA nO pn hidden_states attention_mask =
      (let norm1 := BertLayer.add_norm hidden_states
        (concatHeads (l.self_attention.forward training pn hidden_states attention_mask))
        l.attention_dense.apply
        (fun b l' => dropoutFn training l.hidden_dropout_prob (nA b l'))
        l.attention_layer_norm
      BertLayer.add_norm norm1
        (fun b l' i => l.interm_af (l.interm_dense.apply (norm1 b l') i))
        l.out_dense.apply
        (fun b l' => dropoutFn training l.hidden_dropout_prob (nO b l'))
        l.out_layer_norm) := rfl

/-- C6: `forward` composes `embed` and `encode` and returns exactly the
two named outputs `last_hidden_state` (the full `[batch, L, hidden]`
sequence output, by the result type) and `pooler_output` (`[batch,
hidden]`), the latter obtained from the hidden state at sequence
position 0 by one affine transform followed by the hyperbolic
tangent. -/
theorem bertModel_forward_composes {vocab maxPos tv nh hs iSize B L : ℕ}
    (m : BertModel vocab maxPos tv nh hs iSize) (training : Bool)
    (nE : Fin B → Fin L → Fin (nh * hs) → Bool)
    (nA nO : ℕ → Fin B → Fin L → Fin (nh * hs) → Bool)
    (pn : ℕ → Fin B → Fin nh → Fin L → Fin L → Bool)
    (h0 : 0 < L) (hL : L ≤ maxPos) (htv : 0 < tv)
    (input_ids : Fin B → Fin L → Fin vocab)
    (attention_mask : Fin B → Fin L → ℝ) :
    (m.forward training nE nA nO pn h0 hL htv input_ids attention_mask).last_hidden_state
        = m.encode training nA nO pn (m.embed training nE hL htv input_ids) attention_mask ∧
    (m.forward training nE nA nO pn h0 hL htv input_ids attention_mask).pooler_output
        = fun b hd => Real.tanh (m.pooler_dense.apply
            (fun h' => m.encode training nA nO pn (m.embed training nE hL htv input_ids)
              attention_mask b ⟨0, h0⟩ h') hd) :=
  ⟨rfl, rfl⟩

/-- Witness for `bertModel_forward_composes` on a concrete
all-sizes-one model in evaluation mode. -/
theorem bertModel_forward_composes_witness :
    (exModel.forward false exNoiseE exNoiseL exNoiseL exNoiseP Nat.one_pos (le_refl 1)
        Nat.one_pos exIds exMask1).last_hidden_state
      = exModel.encode false exNoiseL exNoiseL exNoiseP
          (exModel.embed false exNoiseE (le_refl 1) Nat.one_pos exIds) exMask1 ∧
    (exModel.forward false exNoiseE exNoiseL exNoiseL exNoiseP Nat.one_pos (le_refl 1)
        Nat.one_pos exIds exMask1).pooler_output
      = fun b hd => Real.tanh (exModel.pooler_dense.apply
          (fun h' => exModel.encode false exNoiseL exNoiseL exNoiseP
            (exModel.embed false exNoiseE (le_refl 1) Nat.one_pos exIds) exMask1
            b ⟨0, Nat.one_pos⟩ h') hd) :=
  bertModel_forward_composes exModel false exNoiseE exNoiseL exNoiseL exNoiseP
    Nat.one_pos (le_refl 1) Nat.one_pos exIds exMask1

/-- C7: the embedding stage produces
`Dropout(LayerNorm(word_embedding[token id] + position_embedding[l] +
type_embedding[0]))`, the position index being the sequence position
`l` itself (`arange(seq_length)` expanded over the batch, independent
of token content) and the token-type id always 0. -/
theorem bertModel_embed_spec {vocab maxPos tv nh hs iSize B L : ℕ}
    (m : BertModel vocab maxPos tv nh hs iSize) (training : Bool)
    (nE : Fin B → Fin L → Fin (nh * hs) → Bool)
    (hL : L ≤ maxPos) (htv : 0 < tv)
    (input_ids : Fin B → Fin L → Fin vocab) (b : Fin B) (l : Fin L) :
    m.embed training nE hL htv input_ids b l =
      dropoutFn training m.hidden_dropout_prob (nE b l)
        (m.embed_layer_norm (fun hd =>
          m.word_embedding (input_ids b l) hd
            + m.pos_embedding (Fin.castLE hL l) hd
            + m.tk_type_embedding ⟨0, htv⟩ hd)) := by
  have harg : (fun hd => m.word_embedding (input_ids b l) hd
          + m.tk_type_embedding ⟨0, htv⟩ hd
          + m.pos_embedding (Fin.castLE hL l) hd)
      = (fun hd => m.word_embedding (input_ids b l) hd
          + m.pos_embedding (Fin.castLE hL l) hd
          + m.tk_type_embedding ⟨0, htv⟩ hd) := by
    funext hd
    ring
  exact congrArg
    (fun f => dropoutFn training m.hidden_dropout_prob (nE b l) (m.embed_layer_norm f)) harg

/-- Witness for `bertModel_embed_spec` on the concrete all-sizes-one
model at batch index 0, position 0. -/
theorem bertModel_embed_spec_witness :
    exModel.embed false exNoiseE (le_refl 1) Nat.one_pos exIds 0 0 =
      dropoutFn false exModel.hidden_dropout_prob (exNoiseE 0 0)
        (exModel.embed_layer_norm (fun hd =>
          exModel.word_embedding (exIds 0 0) hd
            + exModel.pos_embedding (Fin.castLE (le_refl 1) 0) hd
            + exModel.tk_type_embedding ⟨0, Nat.one_pos⟩ hd)) :=
  bertModel_embed_spec exModel false exNoiseE (le_refl 1) Nat.one_pos exIds 0 0

/-- C8, counterexample: a forward call with token ids of shape `[1, 2]`
and an attention mask of shape `[1, 1]` — shapes plainly inconsistent —
does not fail: the size-1 mask length broadcasts silently inside
`masked_fill_` and the call returns outputs of shape `[1,2,8]` and
`[1,8]` (here with maxPos = 512 and one encoder layer). -/
theorem forwardShape_silent_broadcast :
    forwardShape 512 1 1 2 1 1 8 = some ((1, 2, 8), (1, 8)) ∧
    ¬ ((1, 1) = ((1 : ℕ), (2 : ℕ))) := by decide

/-- C8, amended: a forward call fails when the sequence length exceeds
max_position_embeddings (the position-embedding lookup is out of
range), and — provided at least one encoder layer runs — when the mask
shape is not broadcastable against the attention scores (its batch
dimension neither equals the token batch dimension nor 1, or its length
dimension neither equals the sequence length nor 1); an inconsistent
mask whose mismatched dimension is 1 is silently broadcast instead of
being reported. -/
theorem forwardShape_errors (maxPos numLayers B L Bm Lm H : ℕ) :
    (maxPos < L → forwardShape maxPos numLayers B L Bm Lm H = none) ∧
    (0 < numLayers → ¬ ((Bm = B ∨ Bm = 1) ∧ (Lm = L ∨ Lm = 1)) →
      forwardShape maxPos numLayers B L Bm Lm H = none) := by
  constructor
  · intro hlt
    unfold forwardShape
    rw [if_neg (Nat.not_le.mpr hlt)]
  · intro hnl hbad
    unfold forwardShape
    by_cases hle : L ≤ maxPos
    · rw [if_pos hle, if_neg]
      rintro (h0 | hok)
      · exact absurd h0 hnl.ne'
      · exact hbad hok
    · rw [if_neg hle]

/-- Witness for `forwardShape_errors`: a call with sequence length 5
against capacity 4 fails, and a call whose mask batch dimension is 5
against a token batch of 2 fails. -/
theorem forwardShape_errors_witness :
    forwardShape 4 1 1 5 1 5 8 = none ∧ forwardShape 512 1 2 3 5 3 8 = none :=
  ⟨(forwardShape_errors 4 1 1 5 1 5 8).1 (by decide),
   (forwardShape_errors 512 1 2 3 5 3 8).2 (by decide) (by decide)⟩

lemma bertLayer_forward_eval_noise_irrel {B L nh hs iSize : ℕ}
    (l : BertLayer nh hs iSize)
    (nA nA' nO nO' : Fin B → Fin L → Fin (nh * hs) → Bool)
    (pn pn' : Fin B → Fin nh → Fin L → Fin L → Bool)
    (hidden_states : Fin B → Fin L → Fin (nh * hs) → ℝ)
    (attention_mask : Fin B → Fin 1 → Fin 1 → Fin L → ℝ) :
    l.forward false nA nO pn hidden_states attention_mask =
      l.forward false nA' nO' pn' hidden_states attention_mask := rfl

lemma encodeLayers_eval_noise_irrel {nh hs iSize B L : ℕ}
    (layers : List (BertLayer nh hs iSize))
    (nA nA' nO nO' : ℕ → Fin B → Fin L → Fin (nh * hs) → Bool)
    (pn pn' : ℕ → Fin B → Fin nh → Fin L → Fin L → Bool) :
    ∀ (k k' : ℕ) (hidden_states : Fin B → Fin L → Fin (nh * hs) → ℝ)
      (mask : Fin B → Fin 1 → Fin 1 → Fin L → ℝ),
      encodeLayers false nA nO pn layers k hidden_states mask =
        encodeLayers false nA' nO' pn' layers k' hidden_states mask := by
  induction layers with
  | nil => intro k k' hidden_states mask; rfl
  | cons l rest ih =>
      intro k k' hidden_states mask
      show encodeLayers false nA nO pn rest (k + 1)
          (l.forward false (nA k) (nO k) (pn k) hidden_states mask) mask =
        encodeLayers false nA' nO' pn' rest (k' + 1)
          (l.forward false (nA' k') (nO' k') (pn' k') hidden_states mask) mask
      rw [bertLayer_forward_eval_noise_irrel l (nA k) (nA' k') (nO k) (nO' k')
        (pn k) (pn' k') hidden_states mask]
      exact ih (k + 1) (k' + 1) _ mask

/-- C9: with dropout disabled (training = false, evaluation mode) and
parameters fixed, `forward` is deterministic — its outputs do not
depend on any of the dropout noise streams, so two calls with identical
token ids and attention mask (and arbitrary, possibly different, random
states) produce identical sequence and pooled outputs. -/
theorem bertModel_forward_eval_deterministic {vocab maxPos tv nh hs iSize B L : ℕ}
    (m : BertModel vocab maxPos tv nh hs iSize)
    (nE nE' : Fin B → Fin L → Fin (nh * hs) → Bool)
    (nA nA' nO nO' : ℕ → Fin B → Fin L → Fin (nh * hs) → Bool)
    (pn pn' : ℕ → Fin B → Fin nh → Fin L → Fin L → Bool)
    (h0 : 0 < L) (hL : L ≤ maxPos) (htv : 0 < tv)
    (input_ids : Fin B → Fin L → Fin vocab)
    (attention_mask : Fin B → Fin L → ℝ) :
    m.forward false nE nA nO pn h0 hL htv input_ids attention_mask =
      m.forward false nE' nA' nO' pn' h0 hL htv input_ids attention_mask := by
  have hemb : m.embed false nE hL htv input_ids = m.embed false nE' hL htv input_ids := rfl
  have hseq : m.encode false nA nO pn (m.embed false nE hL htv input_ids) attention_mask =
      m.encode false nA' nO' pn' (m.embed false nE' hL htv input_ids) attention_mask := by
    rw [hemb]
    exact encodeLayers_eval_noise_irrel m.bert_layers nA nA' nO nO' pn pn' 0 0 _ _
  simp only [BertModel.forward]
  rw [hseq]

/-- Witness for `bertModel_forward_eval_deterministic`: the concrete
all-sizes-one model in evaluation mode yields the same output under the
never-firing and the always-firing noise streams. -/
theorem bertModel_forward_eval_deterministic_witness :
    exModel.forward false exNoiseE exNoiseL exNoiseL exNoiseP Nat.one_pos (le_refl 1)
        Nat.one_pos exIds exMask1 =
      exModel.forward false exNoiseE2 exNoiseL2 exNoiseL2 exNoiseP2 Nat.one_pos (le_refl 1)
        Nat.one_pos exIds exMask1 :=
  bertModel_forward_eval_deterministic exModel exNoiseE exNoiseE2 exNoiseL exNoiseL2
    exNoiseL exNoiseL2 exNoiseP exNoiseP2 Nat.one_pos (le_refl 1) Nat.one_pos exIds exMask1

lemma encodeLayers_probs_noise_irrel {nh hs iSize B L : ℕ}
    (layers : List (BertLayer nh hs iSize)) (training : Bool)
    (nA nO : ℕ → Fin B → Fin L → Fin (nh * hs) → Bool)
    (pn pn' : ℕ → Fin B → Fin nh → Fin L → Fin L → Bool) :
    ∀ (k : ℕ) (hidden_states : Fin B → Fin L → Fin (nh * hs) → ℝ)
      (mask : Fin B → Fin 1 → Fin 1 → Fin L → ℝ),
      encodeLayers training nA nO pn layers k hidden_states mask =
        encodeLayers training nA nO pn' layers k hidden_states mask := by
  induction layers with
  | nil => intro k hidden_states mask; rfl
  | cons l rest ih =>
      intro k hidden_states mask
      show encodeLayers training nA nO pn rest (k + 1)
          (l.forward training (nA k) (nO k) (pn k) hidden_states mask) mask =
        encodeLayers training nA nO pn' rest (k + 1)
          (l.forward training (nA k) (nO k) (pn' k) hidden_states mask) mask
      have hl : l.forward training (nA k) (nO k) (pn k) hidden_states mask =
          l.forward training (nA k) (nO k) (pn' k) hidden_states mask := rfl
      rw [hl]
      exact ih (k + 1) _ mask

/-- C10: the attention-probability dropout is never applied — the
self-attention output is identical under any two training flags and any
two attention-probability noise streams (the body of `attention` never
consumes them, its dropout invocation being commented out in the
source), and at the model level changing only the attention-probability
noise never changes `forward`'s output, in training mode as in
evaluation mode: the mode reaches the output only through the embedding
dropout and the two add-norm dropouts. -/
theorem attention_probs_dropout_unused {vocab maxPos tv nh hs iSize B L : ℕ}
    (sa : BertSelfAttention nh hs) (t t' : Bool)
    (apn apn' : Fin B → Fin nh → Fin L → Fin L → Bool)
    (hidden_states : Fin B → Fin L → Fin (nh * hs) → ℝ)
    (extended_mask : Fin B → Fin 1 → Fin 1 → Fin L → ℝ)
    (m : BertModel vocab maxPos tv nh hs iSize) (training : Bool)
    (nE : Fin B → Fin L → Fin (nh * hs) → Bool)
    (nA nO : ℕ → Fin B → Fin L → Fin (nh * hs) → Bool)
    (pn pn' : ℕ → Fin B → Fin nh → Fin L → Fin L → Bool)
    (h0 : 0 < L) (hL : L ≤ maxPos) (htv : 0 < tv)
    (input_ids : Fin B → Fin L → Fin vocab)
    (attention_mask : Fin B → Fin L → ℝ) :
    sa.forward t apn hidden_states extended_mask =
      sa.forward t' apn' hidden_states extended_mask ∧
    m.forward training nE nA nO pn h0 hL htv input_ids attention_mask =
      m.forward training nE nA nO pn' h0 hL htv input_ids attention_mask := by
  refine ⟨rfl, ?_⟩
  have hseq : m.encode training nA nO pn (m.embed training nE hL htv input_ids)
        attention_mask =
      m.encode training nA nO pn' (m.embed training nE hL htv input_ids) attention_mask :=
    encodeLayers_probs_noise_irrel m.bert_layers training nA nO pn pn' 0 _ _
  simp only [BertModel.forward]
  rw [hseq]

/-- Witness for `attention_probs_dropout_unused` on the concrete
all-sizes-one model and self-attention inputs, in training mode, with
the never-firing versus the always-firing probability noise. -/
theorem attention_probs_dropout_unused_witness :
    exSelfAttention.forward true (exNoiseP 0) exHidden
        (get_extended_attention_mask exMask1) =
      exSelfAttention.forward false (exNoiseP2 0) exHidden
        (get_extended_attention_mask exMask1) ∧
    exModel.forward true exNoiseE exNoiseL exNoiseL exNoiseP Nat.one_pos (le_refl 1)
        Nat.one_pos exIds exMask1 =
      exModel.forward true exNoiseE exNoiseL exNoiseL exNoiseP2 Nat.one_pos (le_refl 1)
        Nat.one_pos exIds exMask1 :=
  attention_probs_dropout_unused exSelfAttention true false (exNoiseP 0) (exNoiseP2 0)
    exHidden (get_extended_attention_mask exMask1)
    exModel true exNoiseE exNoiseL exNoiseL exNoiseP exNoiseP2 Nat.one_pos (le_refl 1)
    Nat.one_pos exIds exMask1
